import Mathlib

/-!
Verification of the sync engine of `blender_web_sync_plugin.py`
(Blender_Three_Live_Sync repository).

The Python source is shallowly embedded: bytes are `Nat` (0..255), byte
strings are `List Nat`, Python `str` values are Lean `String`, wall-clock
times are `ℚ`. The TCP socket is modelled deterministically: the receive
side is a list of pending bytes where `recv k` returns the first
`min k available` bytes (an empty result models the peer having closed),
and the send side is a list of per-call results (`some k` = the call
accepted `k` bytes, `none` = the call raised an exception).

External library calls that the plugin makes (zlib compression, base64,
MD5, json) are treated as parameters or as faithful subsets: `compress`,
`b64`, `md5` are function parameters (the claims never depend on their
values), while UTF-8 decoding and JSON parsing are implemented directly
because the inbound pipeline's observable behaviour depends on them.
-/

namespace WebSync

/-! ### Byte-order helpers: `int.to_bytes(4, "big")` / `int.from_bytes(_, "big")` -/

/-- Big-endian encoding of `v` into exactly `n` bytes, as Python's
`v.to_bytes(n, byteorder="big")` produces (the plugin only calls it with
values below `2^32`, where Python does not raise `OverflowError`). -/
def toBytesBE : Nat → Nat → List Nat
  | 0, _ => []
  | n + 1, v => toBytesBE n (v / 256) ++ [v % 256]

/-- Big-endian decoding, as Python's `int.from_bytes(bs, byteorder="big")`. -/
def fromBytesBE (bs : List Nat) : Nat :=
  bs.foldl (fun acc b => acc * 256 + b) 0

/-! ### Protocol constants (from the source) -/

/-- Outbound size cap: `50 * 1024 * 1024` in `send_data`. -/
def MAX_SEND : Nat := 50 * 1024 * 1024

/-- Inbound declared-size cap: `10 * 1024 * 1024` in `receive_messages`. -/
def MAX_RECV : Nat := 10 * 1024 * 1024

/-- Chunk size used by both the receive loop and the send loop: `64 * 1024`. -/
def CHUNK_SIZE : Nat := 64 * 1024

/-! ### Inbound framing (`receive_messages`, lines 148–196)

Both receive loops of the source have the shape
`while got < target: chunk = recv(request); if not chunk: return`.
`recvChunks cap fuel stream need` models such a loop on the deterministic
stream: `request = min need cap` (the header loop requests `4 - got`,
which equals `min (4 - got) cap` for any `cap ≥ 4`; the body loop requests
`min remaining (64*1024)`). The result is `none` when the peer closed
(an empty `recv` result) before `need` bytes arrived, otherwise the bytes
read together with the rest of the stream. `fuel` bounds the iteration
count; every iteration reads at least one byte, so `need + 1` suffices. -/
def recvChunks (cap : Nat) : Nat → List Nat → Nat → Option (List Nat × List Nat)
  | 0, _, _ => Option.none
  | fuel + 1, stream, need =>
    if need = 0 then some ([], stream)
    else
      let req := min need cap
      let chunk := stream.take req
      if chunk.length = 0 then Option.none
      else
        match recvChunks cap fuel (stream.drop req) (need - chunk.length) with
        | Option.none => Option.none
        | some (more, rest) => some (chunk ++ more, rest)

/-- Header phase of `receive_messages`: read exactly 4 bytes. -/
def recvHeader (stream : List Nat) : Option (List Nat × List Nat) :=
  recvChunks 4 5 stream 4

/-- Outcome of reading one frame off the stream. -/
inductive ReadRes where
  | closed
  | tooLarge (declared : Nat) (rest : List Nat)
  | frame (payload : List Nat) (rest : List Nat)

/-- One frame read, as performed by the top of the `receive_messages` loop
(lines 150–196): read a 4-byte big-endian length; if it exceeds
`MAX_RECV`, drop the frame (`continue`) without reading any payload
bytes; otherwise read exactly that many payload bytes in 64 KiB chunks.
An empty `recv` in either phase is the peer closing the connection. -/
def readFrame (stream : List Nat) : ReadRes :=
  match recvHeader stream with
  | Option.none => ReadRes.closed
  | some (sizeData, rest) =>
    let messageSize := fromBytesBE sizeData
    if messageSize > MAX_RECV then ReadRes.tooLarge messageSize rest
    else
      match recvChunks CHUNK_SIZE (messageSize + 1) rest messageSize with
      | Option.none => ReadRes.closed
      | some (payload, rest2) => ReadRes.frame payload rest2

/-- Wire form of one frame as written by `send_data`: a 4-byte big-endian
length followed by the payload bytes. -/
def encodeFrame (payload : List Nat) : List Nat :=
  toBytesBE 4 payload.length ++ payload

/-! ### UTF-8 decoding (`message_data.decode('utf-8')`)

Standard UTF-8: 1–4 byte sequences with the usual lead/continuation
patterns; surrogate code points and out-of-range values are rejected, as
Python's strict decoder rejects them. (Overlong-form rejection is not
modelled; no claim depends on it.) `none` models `UnicodeDecodeError`. -/

/-- Whether `b` is a UTF-8 continuation byte `10xxxxxx`. -/
def isCont (b : Nat) : Bool := 128 ≤ b && b < 192

def utf8Go : Nat → List Nat → Option (List Char)
  | 0, _ => Option.none
  | _ + 1, [] => some []
  | fuel + 1, b :: bs =>
    if b < 128 then
      (utf8Go fuel bs).map (fun cs => Char.ofNat b :: cs)
    else if 192 ≤ b && b < 224 then
      match bs with
      | c1 :: bs2 =>
        if isCont c1 then
          let cp := (b - 192) * 64 + (c1 - 128)
          (utf8Go fuel bs2).map (fun cs => Char.ofNat cp :: cs)
        else Option.none
      | _ => Option.none
    else if 224 ≤ b && b < 240 then
      match bs with
      | c1 :: c2 :: bs2 =>
        if isCont c1 && isCont c2 then
          let cp := (b - 224) * 4096 + (c1 - 128) * 64 + (c2 - 128)
          if 55296 ≤ cp && cp ≤ 57343 then Option.none
          else (utf8Go fuel bs2).map (fun cs => Char.ofNat cp :: cs)
        else Option.none
      | _ => Option.none
    else if 240 ≤ b && b < 248 then
      match bs with
      | c1 :: c2 :: c3 :: bs2 =>
        if isCont c1 && isCont c2 && isCont c3 then
          let cp := (b - 240) * 262144 + (c1 - 128) * 4096 + (c2 - 128) * 64 + (c3 - 128)
          if cp ≥ 1114112 then Option.none
          else (utf8Go fuel bs2).map (fun cs => Char.ofNat cp :: cs)
        else Option.none
      | _ => Option.none
    else Option.none

/-- Decode a byte string as UTF-8 text (Python `bytes.decode('utf-8')`). -/
def utf8Decode (bs : List Nat) : Option (List Char) :=
  utf8Go (bs.length + 1) bs

/-! ### JSON parsing (`json.loads`)

A faithful executable subset of Python's `json.loads`: objects, arrays,
double-quoted strings with the single-character escapes, integer numbers
(no fractions/exponents — no claim depends on numeric values), `true`,
`false`, `null`, and insignificant whitespace. `none` models
`json.JSONDecodeError`. Duplicate object keys resolve to the last
occurrence, as Python's dict construction does. -/

inductive JValue where
  | null
  | bool (b : Bool)
  | num (n : Int)
  | str (s : List Char)
  | arr (elems : List JValue)
  | obj (fields : List (List Char × JValue))

/-- Python `dict.get`: last write to a key wins. -/
def jLookup (fields : List (List Char × JValue)) (key : List Char) : Option JValue :=
  fields.foldl (fun acc kv => if kv.1 = key then some kv.2 else acc) Option.none

def openBrace : Char := Char.ofNat 123
def closeBrace : Char := Char.ofNat 125

def isWs (c : Char) : Bool := c = ' ' || c = '\t' || c = '\n' || c = '\r'

def skipWs (cs : List Char) : List Char := cs.dropWhile isWs

def isDigitChar (c : Char) : Bool := '0' ≤ c && c ≤ '9'

def digitVal (c : Char) : Nat := c.toNat - 48

def parseDigits : List Char → Nat → Option (Nat × List Char)
  | [], _ => Option.none
  | c :: cs, acc =>
    if isDigitChar c then
      match parseDigits cs (acc * 10 + digitVal c) with
      | some r => some r
      | Option.none => some (acc * 10 + digitVal c, cs)
    else Option.none

def escChar (c : Char) : Option Char :=
  if c = '"' then some '"'
  else if c = '\\' then some '\\'
  else if c = '/' then some '/'
  else if c = 'n' then some '\n'
  else if c = 't' then some '\t'
  else if c = 'r' then some '\r'
  else if c = 'b' then some (Char.ofNat 8)
  else if c = 'f' then some (Char.ofNat 12)
  else Option.none

/-- Characters of a JSON string after the opening quote. -/
def parseStr : Nat → List Char → Option (List Char × List Char)
  | 0, _ => Option.none
  | _ + 1, [] => Option.none
  | fuel + 1, c :: cs =>
    if c = '"' then some ([], cs)
    else if c = '\\' then
      match cs with
      | e :: cs2 =>
        match escChar e with
        | some ec => (parseStr fuel cs2).map (fun r => (ec :: r.1, r.2))
        | Option.none => Option.none
      | [] => Option.none
    else (parseStr fuel cs).map (fun r => (c :: r.1, r.2))

mutual

def parseValue : Nat → List Char → Option (JValue × List Char)
  | 0, _ => Option.none
  | _ + 1, [] => Option.none
  | fuel + 1, c :: cs =>
    if c = '"' then
      (parseStr fuel cs).map (fun r => (JValue.str r.1, r.2))
    else if c = openBrace then
      match skipWs cs with
      | d :: ds =>
        if d = closeBrace then some (JValue.obj [], ds)
        else parseMembers fuel (d :: ds) []
      | [] => Option.none
    else if c = '[' then
      match skipWs cs with
      | d :: ds =>
        if d = ']' then some (JValue.arr [], ds)
        else parseElems fuel (d :: ds) []
      | [] => Option.none
    else if c = 't' then
      match cs with
      | 'r' :: 'u' :: 'e' :: cs2 => some (JValue.bool true, cs2)
      | _ => Option.none
    else if c = 'f' then
      match cs with
      | 'a' :: 'l' :: 's' :: 'e' :: cs2 => some (JValue.bool false, cs2)
      | _ => Option.none
    else if c = 'n' then
      match cs with
      | 'u' :: 'l' :: 'l' :: cs2 => some (JValue.null, cs2)
      | _ => Option.none
    else if c = '-' then
      match parseDigits cs 0 with
      | some (n, cs2) => some (JValue.num (-(n : Int)), cs2)
      | Option.none => Option.none
    else if isDigitChar c then
      match parseDigits (c :: cs) 0 with
      | some (n, cs2) => some (JValue.num (n : Int), cs2)
      | Option.none => Option.none
    else Option.none

def parseMembers : Nat → List Char → List (List Char × JValue) →
    Option (JValue × List Char)
  | 0, _, _ => Option.none
  | fuel + 1, cs, acc =>
    match skipWs cs with
    | '"' :: cs1 =>
      match parseStr fuel cs1 with
      | some (key, cs2) =>
        match skipWs cs2 with
        | ':' :: cs3 =>
          match parseValue fuel (skipWs cs3) with
          | some (v, cs4) =>
            match skipWs cs4 with
            | ',' :: cs5 => parseMembers fuel cs5 (acc ++ [(key, v)])
            | d :: cs5 =>
              if d = closeBrace then some (JValue.obj (acc ++ [(key, v)]), cs5)
              else Option.none
            | [] => Option.none
          | Option.none => Option.none
        | _ => Option.none
      | Option.none => Option.none
    | _ => Option.none

def parseElems : Nat → List Char → List JValue → Option (JValue × List Char)
  | 0, _, _ => Option.none
  | fuel + 1, cs, acc =>
    match parseValue fuel (skipWs cs) with
    | some (v, cs2) =>
      match skipWs cs2 with
      | ',' :: cs3 => parseElems fuel cs3 (acc ++ [v])
      | ']' :: cs3 => some (JValue.arr (acc ++ [v]), cs3)
      | _ => Option.none
    | Option.none => Option.none

end

/-- Python `json.loads`: parse one document, allowing only trailing
whitespace. -/
def jsonLoads (cs : List Char) : Option JValue :=
  match parseValue (cs.length + 1) (skipWs cs) with
  | some (v, rest) => if skipWs rest = [] then some v else Option.none
  | Option.none => Option.none

/-- Combined payload interpretation of the inbound pipeline (lines
196–199 of the source): UTF-8 decode, then JSON parse. `none` covers both
`UnicodeDecodeError` and `json.JSONDecodeError`, the two exceptions the
source catches and treats as a dropped message. -/
def decodeParse (payload : List Nat) : Option JValue :=
  match utf8Decode payload with
  | some cs => jsonLoads cs
  | Option.none => Option.none

/-! ### zlib container header (RFC 1950)

Modelled from the spec: the wire protocol section of the spec states that
a frame payload is deflate-compressed, and the plugin's own outbound path
uses Python's `zlib`. A zlib stream starts with a 2-byte header whose
compression method field must be 8 (deflate), whose window field must be
at most 7, and whose two bytes, read big-endian, must be divisible by 31;
every conforming decompressor (including `zlib.decompress`) rejects input
failing this check before producing any output. The inbound code of the
repository never performs such a decompression, which this predicate
makes observable. -/
def zlibHeaderOk (bs : List Nat) : Bool :=
  match bs with
  | cmf :: flg :: _ => cmf % 16 = 8 && cmf / 16 ≤ 7 && (cmf * 256 + flg) % 31 = 0
  | _ => false

/-! ### Sync statistics (`sync_stats` and `update_sync_stats`) -/

structure SyncStats where
  startTime : Option ℚ
  packetsSent : Nat
  bytesSent : Nat
  lastSyncTime : Option ℚ
  syncRate : ℚ
  errors : Nat
  texturesCached : Nat
  texturesSent : Nat
deriving DecidableEq

/-- Initial value of `sync_stats` as reset by `StartWebSyncServer.execute`
(lines 1003–1012), at session start time `t0`. -/
def initStats (t0 : ℚ) : SyncStats :=
  { startTime := some t0, packetsSent := 0, bytesSent := 0,
    lastSyncTime := Option.none, syncRate := 0, errors := 0,
    texturesCached := 0, texturesSent := 0 }

/-- Embedding of `update_sync_stats(data_size, is_error)` (lines 252–270),
with `now` standing for `time.time()`. -/
def updateSyncStats (now : ℚ) (dataSize : Nat) (isError : Bool) (s : SyncStats) : SyncStats :=
  let s0 := if s.startTime = Option.none then { s with startTime := some now } else s
  if isError then { s0 with errors := s0.errors + 1 }
  else
    let rated :=
      match s0.lastSyncTime with
      | some t =>
        let delta := now - t
        { s0 with syncRate := if 0 < delta then 1 / delta else 0 }
      | Option.none => s0
    { rated with
      packetsSent := rated.packetsSent + 1,
      bytesSent := rated.bytesSent + dataSize,
      lastSyncTime := some now }

/-! ### One iteration of the receive loop (`receive_messages`, lines 148–218)

The iteration is modelled with the stop flag false (the claims concern a
live session). After a complete frame arrives, the payload is decoded and
parsed directly — the source performs no decompression — and the parsed
message is dispatched by its `type` field. A payload that fails UTF-8
decoding or JSON parsing is logged and dropped (`continue`). A parsed
message that is not a JSON object makes `message.get('type')` raise
`AttributeError`, which only the outer `except` catches: the loop breaks
(`StepResult.fatal`). -/

inductive StepResult where
  | closed
  | tooLarge (declared : Nat)
  | dispatched (msg : JValue)
  | ignored (msg : JValue)
  | parseFailed
  | fatal

/-- Whether this step is a dispatch of a `transform_update`. -/
def StepResult.isDispatch : StepResult → Bool
  | .dispatched _ => true
  | _ => false

/-- Whether the `while` loop of `receive_messages` proceeds to its next
iteration after this step (read directly off the source's control flow:
`continue` for dropped/ignored/parsed messages, `return`/`break` when the
connection closed or an uncaught exception fired). -/
def stepContinues : StepResult → Bool
  | .closed => false
  | .fatal => false
  | _ => true

def transformUpdateChars : List Char := "transform_update".data

def typeChars : List Char := "type".data

/-- Python's `message.get('type') == 'transform_update'`: true exactly
when the looked-up value is the string `transform_update`. -/
def isTransformType : Option JValue → Bool
  | some (JValue.str s) => s = transformUpdateChars
  | _ => false

/-- Dispatch decision on a successfully read payload: lines 196–209. -/
def classifyMessage (parsed : Option JValue) : StepResult :=
  match parsed with
  | Option.none => StepResult.parseFailed
  | some msg =>
    match msg with
    | JValue.obj fields =>
      if isTransformType (jLookup fields typeChars) then
        StepResult.dispatched msg
      else StepResult.ignored msg
    | _ => StepResult.fatal

/-- One iteration of `receive_messages`. `sync_stats` is threaded through
untouched: the receive path of the source never calls
`update_sync_stats` (its oversize and parse-failure branches only log).
Returns the step outcome, the statistics afterwards, and the bytes still
pending on the stream. -/
def receiveStep (stats : SyncStats) (stream : List Nat) :
    StepResult × SyncStats × List Nat :=
  match readFrame stream with
  | ReadRes.closed => (StepResult.closed, stats, [])
  | ReadRes.tooLarge n rest => (StepResult.tooLarge n, stats, rest)
  | ReadRes.frame payload rest => (classifyMessage (decodeParse payload), stats, rest)

/-! ### Outbound sending (`send_data`, lines 332–396)

The socket's send side is a list of per-call results: `some r` means the
`send` call accepted `min r (len chunk)` bytes (Python's `send` never
accepts more than offered), `none` means the call raised. The function
returns whether `send_data` returned `True`, the bytes that actually
reached the wire, and the unconsumed socket results. -/

def sendChunksGo (data : List Nat) : Nat → Nat → List (Option Nat) →
    Bool × List Nat × List (Option Nat)
  | 0, _, resps => (false, [], resps)
  | fuel + 1, totalSent, resps =>
    if data.length ≤ totalSent then (true, [], resps)
    else
      let chunk := (data.drop totalSent).take CHUNK_SIZE
      match resps with
      | [] => (false, [], [])
      | Option.none :: rest => (false, [], rest)
      | some r :: rest =>
        let accepted := min r chunk.length
        if accepted = 0 then (false, [], rest)
        else
          let (ok, wire, rem) := sendChunksGo data fuel (totalSent + accepted) rest
          (ok, chunk.take accepted ++ wire, rem)

/-- Chunked send loop of `send_data` (lines 368–389): 64 KiB chunks from
`total_sent` onwards, aborting on an exception or a zero-byte send.
Every successful call accepts at least one byte, so fuel
`data.length + 1` covers every run that the source's loop performs. -/
def sendChunks (data : List Nat) (resps : List (Option Nat)) :
    Bool × List Nat × List (Option Nat) :=
  sendChunksGo data (data.length + 1) 0 resps

/-- Embedding of `send_data(data_str)` for a connected socket: compress
(the `zlib.compress(…, level=6)` call is the `compress` parameter),
refuse compressed payloads over `MAX_SEND`, send the 4-byte big-endian
size header (incomplete header send aborts), then the chunk loop. -/
def send_data (compress : List Nat → List Nat) (resps : List (Option Nat))
    (dataStr : List Nat) : Bool × List Nat × List (Option Nat) :=
  let compressed := compress dataStr
  if compressed.length > MAX_SEND then (false, [], resps)
  else
    let header := toBytesBE 4 compressed.length
    match resps with
    | [] => (false, [], [])
    | Option.none :: rest => (false, [], rest)
    | some r :: rest =>
      let accepted := min r 4
      if accepted ≠ 4 then (false, header.take accepted, rest)
      else
        let (ok, wire, rem) := sendChunks compressed rest
        (ok, header ++ wire, rem)

/-! ### Publish step (`send_mesh_data`, lines 951–971)

Scene extraction and JSON serialization are external to the engine (the
spec scopes them out); `dataStr` is the serialized scene text
(`json.dumps(scene_data)` encoded to bytes, so `data_size` is its
length). The step sends only when the text differs from `last_data`; on
success it records the text and updates the statistics; on failure it
leaves every piece of state untouched (no error count — `send_data`
returns `False` rather than raising, so the `except` branch that calls
`update_sync_stats(is_error=True)` is not reached). The socket handle is
never closed on this path, which `sockOpen` records. -/

structure PubState where
  lastData : Option (List Nat)
  stats : SyncStats
  sockOpen : Bool
deriving DecidableEq

structure PubOut where
  sent : Bool
  wire : List Nat
  state : PubState
  resps : List (Option Nat)
deriving DecidableEq

def publish (compress : List Nat → List Nat) (now : ℚ)
    (resps : List (Option Nat)) (dataStr : List Nat) (st : PubState) : PubOut :=
  if some dataStr = st.lastData then
    { sent := false, wire := [], state := st, resps := resps }
  else
    let (ok, wire, rem) := send_data compress resps dataStr
    if ok then
      let st1 : PubState :=
        { st with
          lastData := some dataStr
          stats := updateSyncStats now dataStr.length false st.stats }
      { sent := true, wire := wire, state := st1, resps := rem }
    else
      { sent := false, wire := wire, state := st, resps := rem }

/-! ### Anti-feedback gate and trigger handlers

State of the globals `is_applying_external_transform`,
`external_transform_cooldown_end`, `last_depsgraph_sync_time`,
`last_frame_sync_time` and `is_server_running`. Times are `time.time()`
values. -/

structure GateState where
  applying : Bool
  cooldownEnd : ℚ
deriving DecidableEq

/-- Gate effect of `apply_transform_update` (lines 100–101): the flag is
raised and the cooldown deadline set to one second after the apply
time. -/
def applyTransformGate (t : ℚ) : GateState :=
  { applying := true, cooldownEnd := t + 1 }

/-- Embedding of `clear_external_transform_flag` (lines 67–72), run by
the 0.1 s timer that `apply_transform_update` registers. -/
def clearExternalTransformFlag (g : GateState) : GateState :=
  { g with applying := false }

/-- Combined gate veto as read by both handlers at time `now`: the
applying flag, or a cooldown deadline still in the future. -/
def gateVeto (g : GateState) (now : ℚ) : Bool :=
  g.applying || decide (now < g.cooldownEnd)

/-- Fixed frame-change throttle interval: `frame_sync_throttle = 0.016`
(line 26). -/
def frame_sync_throttle : ℚ := 16 / 1000

structure HandlerState where
  running : Bool
  gate : GateState
  lastDepsgraphSync : ℚ
  lastFrameSync : ℚ
deriving DecidableEq

/-- Rate-limit tail of `depsgraph_update_handler` (lines 1139–1154):
`min_interval = 1.0 / update_frequency`; a trigger arriving sooner is
dropped, otherwise `send_mesh_data` runs and the accept time is
recorded. The returned `Bool` is whether `send_mesh_data` was invoked. -/
def depsgraphThrottle (freq : Nat) (now : ℚ) (st : HandlerState) :
    Bool × HandlerState :=
  let minInterval : ℚ := 1 / (freq : ℚ)
  if now - st.lastDepsgraphSync < minInterval then (false, st)
  else (true, { st with lastDepsgraphSync := now })

/-- Embedding of `depsgraph_update_handler` (lines 1120–1154): running
check, applying-flag check, cooldown check, then the frequency
throttle. -/
def depsgraphHandler (freq : Nat) (now : ℚ) (st : HandlerState) :
    Bool × HandlerState :=
  if st.running = false then (false, st)
  else if st.gate.applying then (false, st)
  else if now < st.gate.cooldownEnd then (false, st)
  else depsgraphThrottle freq now st

/-- Throttle tail of `frame_change_handler` (lines 1176–1182): a fixed
`frame_sync_throttle` interval, independent of the configured
frequency. -/
def frameThrottle (now : ℚ) (st : HandlerState) : Bool × HandlerState :=
  if frame_sync_throttle ≤ now - st.lastFrameSync then
    (true, { st with lastFrameSync := now })
  else (false, st)

/-- Embedding of `frame_change_handler` (lines 1157–1182). -/
def frameChangeHandler (now : ℚ) (st : HandlerState) : Bool × HandlerState :=
  if st.running = false then (false, st)
  else if st.gate.applying then (false, st)
  else if now < st.gate.cooldownEnd then (false, st)
  else frameThrottle now st

/-- Run a sequence of scene-change triggers at the given times, counting
how many are accepted (invoke `send_mesh_data`). -/
def runDepsgraphTriggers (freq : Nat) (times : List ℚ) (st : HandlerState) :
    Nat × HandlerState :=
  times.foldl
    (fun acc tm =>
      let (sent, st2) := depsgraphHandler freq tm acc.2
      (acc.1 + (if sent then 1 else 0), st2))
    (0, st)

/-! ### Texture cache (`extract_texture_data`, `get_file_cache_key`)

The filesystem is a map from path to the file's stat data and contents
(`none` = the file does not exist / `os.stat` raises). `b64` models
`base64.b64encode(...).decode('utf-8')` and `md5` models
`calculate_fast_hash`; the claims never depend on their values.
A cached value is a Python dict in the source; its fields are modelled
with `Option` so that the structural validity check (`'name' in` /
`'hash' in`) is representable. -/

structure FileInfo where
  size : Nat
  mtime : Int
  bytes : List Nat
deriving DecidableEq

def FS := String → Option FileInfo

/-- Embedding of `get_file_cache_key(image_path)` (lines 232–240):
`f"{image_path}|{stat.st_size}|{int(stat.st_mtime)}"`, falling back to
the bare path if `os.stat` raises. -/
def getFileCacheKey (fs : FS) (imagePath : String) : String :=
  match fs imagePath with
  | some info => imagePath ++ "|" ++ toString info.size ++ "|" ++ toString info.mtime
  | Option.none => imagePath

structure TexData where
  name : Option String
  dataUrl : Option String
  size : Nat
  format : Option String
  hash : Option String
deriving DecidableEq

/-- Structural validity check applied to a cache hit (lines 425 and 464):
`isinstance(cached_data, dict) and 'name' in cached_data and 'hash' in
cached_data`. -/
def validCached (t : TexData) : Bool :=
  t.name.isSome && t.hash.isSome

def cacheLookup (cache : List (String × TexData)) (k : String) : Option TexData :=
  match cache.find? (fun kv => kv.1 = k) with
  | some kv => some kv.2
  | Option.none => Option.none

def cacheErase (cache : List (String × TexData)) (k : String) :
    List (String × TexData) :=
  cache.filter (fun kv => ¬ kv.1 = k)

/-- Python dict assignment `texture_cache[key] = value`. -/
def cacheInsert (cache : List (String × TexData)) (k : String) (v : TexData) :
    List (String × TexData) :=
  (k, v) :: cacheErase cache k

/-- Texture-cache state: the `texture_cache` global plus the two
`sync_stats` texture counters that `extract_texture_data` touches. -/
structure TexState where
  cache : List (String × TexData)
  texturesCached : Nat
  texturesSent : Nat
deriving DecidableEq

/-- Image source as `extract_texture_data` sees it: the Blender image's
name, its packed bytes when packed in the .blend file, and its filepath
otherwise (Python-falsy empty string when absent). -/
structure ImageSrc where
  name : String
  packed : Option (List Nat)
  filepath : String

/-- String helpers mirroring the Python expressions used for format
detection and path resolution. -/
def splitOnChar (c : Char) : List Char → List (List Char)
  | [] => [[]]
  | x :: xs =>
    let r := splitOnChar c xs
    if x = c then [] :: r
    else
      match r with
      | [] => [[x]]
      | h :: t => (x :: h) :: t

/-- Python `image.name.lower().split('.')[-1] if '.' in image.name else
'png'` (line 497). -/
def formatExtOf (name : String) : String :=
  if name.data.contains '.' then
    String.mk ((splitOnChar '.' (name.data.map Char.toLower)).getLastD [])
  else "png"

/-- MIME tag selection (lines 498–507). -/
def mimeOf (ext : String) : String :=
  if ext = "jpg" ∨ ext = "jpeg" then "image/jpeg"
  else if ext = "png" then "image/png"
  else if ext = "bmp" then "image/bmp"
  else if ext = "tga" then "image/tga"
  else "image/png"

/-- Python `image.filepath.startswith('//')` (Blender-relative path). -/
def isBlendRelative (s : String) : Bool :=
  match s.data with
  | '/' :: '/' :: _ => true
  | _ => false

/-- Python `os.path.dirname`. -/
def dirnameStr (s : String) : String :=
  String.mk (((s.data.reverse.dropWhile (fun c => ¬ c = '/')).drop 1).reverse)

/-- Result of `extract_texture_data`: a texture dict, an error dict
`{"name": …, "filepath"?: …, "error": …}`, or Python `None`. -/
inductive TexResult where
  | asset (t : TexData)
  | errorResult (name : String) (filepath : Option String) (err : String)
  | noTexture
deriving DecidableEq

/-- Tail of `extract_texture_data` (lines 490–529): `if image_data and
cache_key:` build the data URL, hash, store in the cache, count a sent
texture. Falls through to `return None` when the data is empty. -/
def finishTexture (b64 : List Nat → String) (md5 : List Nat → String)
    (imgName key : String) (imageData : List Nat) (st : TexState) :
    TexResult × TexState :=
  if imageData ≠ [] ∧ key ≠ "" then
    let ext := formatExtOf imgName
    let t : TexData :=
      { name := some imgName
        dataUrl := some ("data:" ++ mimeOf ext ++ ";base64," ++ b64 imageData)
        size := imageData.length
        format := some ext
        hash := some (md5 imageData) }
    (TexResult.asset t,
      { st with cache := cacheInsert st.cache key t
                texturesSent := st.texturesSent + 1 })
  else (TexResult.noTexture, st)

/-- Cache consultation shared by the packed and file-backed branches
(lines 419–432 and 457–471): a hit counts a cached texture before the
validity check; a valid hit is returned as-is; an invalid hit is deleted
and the texture re-processed via `fetch`. -/
def consultCache (key : String) (st : TexState)
    (fetch : TexState → TexResult × TexState) : TexResult × TexState :=
  match cacheLookup st.cache key with
  | some cached =>
    let st1 := { st with texturesCached := st.texturesCached + 1 }
    if validCached cached then (TexResult.asset cached, st1)
    else fetch { st1 with cache := cacheErase st1.cache key }
  | Option.none => fetch st

/-- Embedding of `extract_texture_data` from line 406 on, for a node
socket linked to a `TEX_IMAGE` node with an image (the socket plumbing of
lines 403–405 is Blender-API glue outside the engine). `blendFile` is
`bpy.data.filepath` (`none` when the .blend file is unsaved);
`os.path.abspath` on an already absolute path is modelled as the
identity. -/
def extractTextureData (b64 : List Nat → String) (md5 : List Nat → String)
    (fs : FS) (blendFile : Option String) (img : ImageSrc) (st : TexState) :
    TexResult × TexState :=
  match img.packed with
  | some pdata =>
    let key := "packed:" ++ img.name ++ ":" ++ toString pdata.length
    consultCache key st (fun st2 => finishTexture b64 md5 img.name key pdata st2)
  | Option.none =>
    if img.filepath = "" then
      (TexResult.errorResult img.name Option.none "no_filepath", st)
    else
      let resolved : Option String :=
        if isBlendRelative img.filepath then
          match blendFile with
          | some bf =>
            some (dirnameStr bf ++ "/" ++ String.mk (img.filepath.data.drop 2))
          | Option.none => Option.none
        else some img.filepath
      match resolved with
      | Option.none =>
        (TexResult.errorResult img.name (some img.filepath) "relative_path_no_blend", st)
      | some path =>
        let key := getFileCacheKey fs path
        consultCache key st (fun st2 =>
          match fs path with
          | some info => finishTexture b64 md5 img.name key info.bytes st2
          | Option.none =>
            (TexResult.errorResult img.name (some img.filepath) "file_not_found", st2))

/-! ### Session stop (`StopWebSyncServer.execute`, lines 1051–1069)

The socket handle records whether its `close()` call raises (Python's
`socket.close` can raise `OSError`); the source wraps the call in no
`try`, so a raising close propagates out of `execute` — modelled as
`Except.error`. The receive thread's `join(timeout=2.0)` has no
observable effect on this state beyond the thread ending or being
abandoned, recorded in `threadAlive`. -/

structure SockH where
  closeFails : Bool
deriving DecidableEq

structure Session where
  tcpSocket : Option SockH
  isServerRunning : Bool
  uiIsRunning : Bool
  stopReceiveThread : Bool
  threadAlive : Bool
deriving DecidableEq

/-- Embedding of `StopWebSyncServer.execute`: clear the running flags,
signal and join the receive thread, close the socket if present, return
`{"FINISHED"}`. An exception from `close()` escapes before the return. -/
def stopExecute (st : Session) : Except String (String × Session) :=
  let st1 : Session :=
    { st with isServerRunning := false, uiIsRunning := false
              stopReceiveThread := true, threadAlive := false }
  match st1.tcpSocket with
  | some s =>
    if s.closeFails then Except.error "close failed"
    else Except.ok ("FINISHED", { st1 with tcpSocket := Option.none })
  | Option.none => Except.ok ("FINISHED", st1)

/-! ### Concrete inputs used by witnesses and counterexamples -/

/-- Bytes of the JSON text with the two string fields `type` (value
`transform_update`) and `objectName` (value `Box`). -/
def transformPayload : List Nat :=
  ("\x7b\"type\":\"transform_update\",\"objectName\":\"Box\"\x7d").data.map Char.toNat

/-- A payload one byte over the inbound limit. -/
def oversizedPayload : List Nat := List.replicate (MAX_RECV + 1) 0

/-- Constant stand-ins for the external base64 and MD5 library calls,
used only at concrete witness inputs. -/
def b64c : List Nat → String := fun _ => "AQID"

def md5c : List Nat → String := fun _ => "deadbeef"

/-- A file-backed image source at an absolute path. -/
def imgc : ImageSrc := ⟨"t.png", Option.none, "/a/t.png"⟩

def texStart : TexState := ⟨[], 0, 0⟩

/-- Filesystem at the first call: the texture file holds bytes
`[1, 2, 3]`. -/
def fsFirst : FS := fun p => if p = "/a/t.png" then some ⟨3, 5, [1, 2, 3]⟩ else Option.none

/-- Filesystem at the second call: same size and mtime, different bytes —
a correct second call must not depend on them. -/
def fsSecond : FS := fun p => if p = "/a/t.png" then some ⟨3, 5, [9, 9, 9]⟩ else Option.none

/-- The texture asset the first call builds and caches. -/
def texAsset0 : TexData :=
  ⟨some "t.png", some "data:image/png;base64,AQID", 3, some "png", some "deadbeef"⟩

/-- Cache state after the first call. -/
def texState1 : TexState := ⟨[("/a/t.png|3|5", texAsset0)], 0, 1⟩

/-! ## Supporting lemmas -/

theorem toBytesBE_length (n v : Nat) : (toBytesBE n v).length = n := by
  induction n generalizing v with
  | zero => rfl
  | succ n ih => simp [toBytesBE, ih]

theorem fromBytesBE_append_single (l : List Nat) (b : Nat) :
    fromBytesBE (l ++ [b]) = fromBytesBE l * 256 + b := by
  simp [fromBytesBE, List.foldl_append]

theorem fromBytesBE_toBytesBE (n v : Nat) (h : v < 256 ^ n) :
    fromBytesBE (toBytesBE n v) = v := by
  induction n generalizing v with
  | zero =>
    interval_cases v
    rfl
  | succ n ih =>
    have hdiv : v / 256 < 256 ^ n := by
      rw [Nat.div_lt_iff_lt_mul (by norm_num)]
      calc v < 256 ^ (n + 1) := h
        _ = 256 ^ n * 256 := by ring
    rw [toBytesBE, fromBytesBE_append_single, ih _ hdiv, Nat.mul_comm,
      Nat.div_add_mod]

theorem recvChunks_complete (cap : Nat) (hcap : 1 ≤ cap) :
    ∀ fuel need stream, need ≤ stream.length → need < fuel →
      recvChunks cap fuel stream need = some (stream.take need, stream.drop need) := by
  intro fuel
  induction fuel with
  | zero => intro need stream _ h; omega
  | succ fuel ih =>
    intro need stream hlen _
    by_cases h0 : need = 0
    · subst h0; simp [recvChunks]
    · have hneed : 1 ≤ need := Nat.one_le_iff_ne_zero.mpr h0
      have hreq1 : 1 ≤ min need cap := le_min hneed hcap
      have hreqneed : min need cap ≤ need := Nat.min_le_left _ _
      have hchunklen : (stream.take (min need cap)).length = min need cap := by
        rw [List.length_take]
        exact Nat.min_eq_left (le_trans hreqneed hlen)
      have hchunkne : ¬ (stream.take (min need cap)).length = 0 := by omega
      have hrest : need - (stream.take (min need cap)).length ≤ (stream.drop (min need cap)).length := by
        rw [hchunklen, List.length_drop]; omega
      have hfuel2 : need - (stream.take (min need cap)).length < fuel := by
        rw [hchunklen]; omega
      rw [recvChunks]
      simp only [h0, if_false, hchunkne, if_false]
      rw [ih _ _ hrest hfuel2, hchunklen]
      have hsplit : min need cap + (need - min need cap) = need := by omega
      have htake : stream.take (min need cap) ++ (stream.drop (min need cap)).take (need - min need cap) = stream.take need := by
        rw [← List.take_add, hsplit]
      have hdrop : (stream.drop (min need cap)).drop (need - min need cap) = stream.drop need := by
        rw [List.drop_drop]
        congr 1
      simp only [htake, hdrop]

theorem recvHeader_complete (stream : List Nat) (h : 4 ≤ stream.length) :
    recvHeader stream = some (stream.take 4, stream.drop 4) :=
  recvChunks_complete 4 (by norm_num) 5 4 stream h (by norm_num)

/-- Reading a well-sized frame: the header round-trips and the whole
payload is assembled, leaving the rest of the stream untouched. -/
theorem readFrame_encode (p rest : List Nat) (h : p.length ≤ MAX_RECV) :
    readFrame (encodeFrame p ++ rest) = ReadRes.frame p rest := by
  have hlen32 : p.length < 256 ^ 4 := by
    have : MAX_RECV < 256 ^ 4 := by norm_num [MAX_RECV]
    omega
  have hhdrlen : (toBytesBE 4 p.length).length = 4 := toBytesBE_length 4 _
  have hstreamlen : 4 ≤ (encodeFrame p ++ rest).length := by
    simp [encodeFrame, hhdrlen]
  rw [readFrame, recvHeader_complete _ hstreamlen]
  have htake4 : (encodeFrame p ++ rest).take 4 = toBytesBE 4 p.length := by
    rw [encodeFrame, List.append_assoc, List.take_left' hhdrlen]
  have hdrop4 : (encodeFrame p ++ rest).drop 4 = p ++ rest := by
    rw [encodeFrame, List.append_assoc, List.drop_left' hhdrlen]
  rw [htake4, hdrop4]
  simp only [fromBytesBE_toBytesBE 4 p.length hlen32]
  have hnotbig : ¬ p.length > MAX_RECV := by omega
  simp only [hnotbig, if_false]
  rw [recvChunks_complete CHUNK_SIZE (by norm_num [CHUNK_SIZE]) _ _ _
    (by simp) (by omega)]
  simp

/-- Reading a frame whose declared length exceeds the inbound cap: the
frame is dropped after consuming only the 4 header bytes. -/
theorem readFrame_tooLarge (v : Nat) (rest : List Nat)
    (h32 : v < 256 ^ 4) (hbig : v > MAX_RECV) :
    readFrame (toBytesBE 4 v ++ rest) = ReadRes.tooLarge v rest := by
  have hhdrlen : (toBytesBE 4 v).length = 4 := toBytesBE_length 4 _
  have hstreamlen : 4 ≤ (toBytesBE 4 v ++ rest).length := by
    simp [hhdrlen]
  rw [readFrame, recvHeader_complete _ hstreamlen]
  have htake4 : (toBytesBE 4 v ++ rest).take 4 = toBytesBE 4 v :=
    List.take_left' hhdrlen
  have hdrop4 : (toBytesBE 4 v ++ rest).drop 4 = rest :=
    List.drop_left' hhdrlen
  rw [htake4, hdrop4]
  simp only [fromBytesBE_toBytesBE 4 v h32]
  simp only [hbig, if_true]

/-! ## Claims -/

/-- C2 (amended): for every payload `p` with `len(p) ≤ 10 MiB`, reading a
frame from a stream that starts with the 4-byte big-endian length prefix
followed by the payload bytes yields exactly `p` back, leaving the rest
of the stream. (The claim's original bound of 50 MiB fails: the inbound
reader drops any frame declaring more than 10 MiB, see the
counterexample.) -/
theorem frame_roundtrip_within_recv_limit (p rest : List Nat)
    (h : p.length ≤ MAX_RECV) :
    readFrame (encodeFrame p ++ rest) = ReadRes.frame p rest :=
  readFrame_encode p rest h

theorem frame_roundtrip_within_recv_limit_witness :
    [1, 2, 3].length ≤ MAX_RECV ∧
      readFrame (encodeFrame [1, 2, 3] ++ [9]) = ReadRes.frame [1, 2, 3] [9] :=
  ⟨by decide, frame_roundtrip_within_recv_limit [1, 2, 3] [9] (by decide)⟩

/-- C2 (counterexample): a payload of `10 MiB + 1` bytes is within the
claim's stated `0 ≤ len(p) ≤ 50 MiB` range, but reading its frame does
not yield the payload back — the reader drops the frame as too large. -/
theorem frame_roundtrip_counterexample :
    readFrame (encodeFrame oversizedPayload) ≠
      ReadRes.frame oversizedPayload [] := by
  have hlen : oversizedPayload.length = MAX_RECV + 1 := by
    simp [oversizedPayload]
  have h : readFrame (encodeFrame oversizedPayload) =
      ReadRes.tooLarge (MAX_RECV + 1) oversizedPayload := by
    rw [encodeFrame, hlen]
    exact readFrame_tooLarge (MAX_RECV + 1) oversizedPayload
      (by norm_num [MAX_RECV]) (by omega)
  rw [h]
  intro hcontra
  exact ReadRes.noConfusion hcontra

/-- C3 (amended): an inbound frame declaring more than 10 MiB is dropped
after consuming only the 4 header bytes — the payload is never read —
the loop continues, and `sync_stats` is left entirely unchanged. (The
claim's "error counter is incremented" fails: the oversize branch of
`receive_messages` only logs; it never calls `update_sync_stats`, see
the counterexample.) -/
theorem oversized_frame_dropped_no_error_count (v : Nat) (rest : List Nat)
    (stats : SyncStats) (h32 : v < 256 ^ 4) (hbig : v > MAX_RECV) :
    receiveStep stats (toBytesBE 4 v ++ rest) =
      (StepResult.tooLarge v, stats, rest) ∧
    stepContinues (StepResult.tooLarge v) = true := by
  constructor
  · unfold receiveStep
    rw [readFrame_tooLarge v rest h32 hbig]
  · rfl

theorem oversized_frame_dropped_no_error_count_witness :
    (MAX_RECV + 1 < 256 ^ 4 ∧ MAX_RECV + 1 > MAX_RECV) ∧
      receiveStep (initStats 0) (toBytesBE 4 (MAX_RECV + 1) ++ [1, 2, 3]) =
        (StepResult.tooLarge (MAX_RECV + 1), initStats 0, [1, 2, 3]) :=
  ⟨⟨by norm_num [MAX_RECV], by omega⟩,
    (oversized_frame_dropped_no_error_count (MAX_RECV + 1) [1, 2, 3]
      (initStats 0) (by norm_num [MAX_RECV]) (by omega)).1⟩

/-- C3 (counterexample): the claim states the error counter is
incremented when an oversized frame is dropped; at a concrete oversized
frame the error counter is not incremented (it is unchanged), because
the oversize branch of `receive_messages` never touches `sync_stats`. -/
theorem oversized_frame_error_count_counterexample :
    ¬ ((receiveStep (initStats 0)
          (toBytesBE 4 (MAX_RECV + 1) ++ [1, 2, 3, 4, 5])).2.1.errors =
        (initStats 0).errors + 1) := by
  decide

/-- C10: for an inbound frame declaring more than 10 MiB, the loop
consumes exactly the 4 header bytes and leaves the declared payload
bytes unconsumed; the next header read therefore takes the first 4 bytes
of that stale payload as the next frame header (`readFrame` derives the
next declared size from exactly those bytes). -/
theorem oversized_frame_header_only (v : Nat) (payload : List Nat)
    (stats : SyncStats) (h32 : v < 256 ^ 4) (hbig : v > MAX_RECV)
    (hlen : 4 ≤ payload.length) :
    receiveStep stats (toBytesBE 4 v ++ payload) =
      (StepResult.tooLarge v, stats, payload) ∧
    recvHeader payload = some (payload.take 4, payload.drop 4) := by
  constructor
  · unfold receiveStep
    rw [readFrame_tooLarge v payload h32 hbig]
  · exact recvHeader_complete payload hlen

theorem oversized_frame_header_only_witness :
    receiveStep (initStats 0) (toBytesBE 4 (MAX_RECV + 1) ++ [0, 0, 0, 2, 9, 9]) =
      (StepResult.tooLarge (MAX_RECV + 1), initStats 0, [0, 0, 0, 2, 9, 9]) ∧
    recvHeader [0, 0, 0, 2, 9, 9] = some ([0, 0, 0, 2], [9, 9]) := by
  have h := oversized_frame_header_only (MAX_RECV + 1) [0, 0, 0, 2, 9, 9]
    (initStats 0) (by norm_num [MAX_RECV]) (by omega) (by decide)
  exact ⟨h.1, h.2.trans rfl⟩

/-- C1 (amended): a fully received inbound frame's payload is interpreted
directly — UTF-8 decode then JSON parse, with no decompression step —
and a payload that fails to decode or parse yields `parseFailed`, after
which the read loop continues rather than terminating. -/
theorem inbound_parse_direct_drop_continue (p rest : List Nat)
    (stats : SyncStats) (h : p.length ≤ MAX_RECV) :
    receiveStep stats (encodeFrame p ++ rest) =
      (classifyMessage (decodeParse p), stats, rest) ∧
    (decodeParse p = Option.none →
      classifyMessage (decodeParse p) = StepResult.parseFailed ∧
      stepContinues (classifyMessage (decodeParse p)) = true) := by
  constructor
  · unfold receiveStep
    rw [readFrame_encode p rest h]
  · intro hnone
    rw [hnone]
    exact ⟨rfl, rfl⟩

theorem inbound_parse_direct_drop_continue_witness :
    receiveStep (initStats 0) (encodeFrame [123] ++ [5]) =
      (StepResult.parseFailed, initStats 0, [5]) :=
  ((inbound_parse_direct_drop_continue [123] [5] (initStats 0) (by decide)).1).trans rfl

/-- C1 (counterexample): the claim states that the pipeline decompresses
the payload (deflate) before parsing. The concrete payload here is plain
JSON text whose leading bytes are not a valid zlib container header, so
every deflate decompressor (in particular `zlib.decompress`) rejects it;
a decompress-then-parse pipeline would drop it. The code dispatches it
as a `transform_update`, showing no decompression happens. -/
theorem inbound_decompress_counterexample :
    (receiveStep (initStats 0) (encodeFrame transformPayload)).1.isDispatch = true ∧
    zlibHeaderOk transformPayload = false := by
  decide

/-- A successful publish records the sent text in `last_data`. -/
theorem publish_sent_lastData (compress : List Nat → List Nat) (now : ℚ)
    (resps : List (Option Nat)) (s : List Nat) (st : PubState)
    (h : (publish compress now resps s st).sent = true) :
    (publish compress now resps s st).state.lastData = some s := by
  unfold publish at h ⊢
  by_cases hskip : some s = st.lastData
  · simp only [hskip, if_true] at h
    exact Bool.noConfusion h
  · simp only [hskip, if_false] at h ⊢
    rcases hsd : send_data compress resps s with ⟨ok, wire, rem⟩
    cases ok with
    | true => rfl
    | false =>
      rw [hsd] at h
      exact Bool.noConfusion h

/-- C4: after a publish that actually sent serialized text `s`, a second
publish of the identical text performs zero socket writes (empty wire,
socket results untouched) and leaves the publish state — `last_data` and
all of `sync_stats` — unchanged. -/
theorem publish_identical_second_noop (compress : List Nat → List Nat)
    (now1 now2 : ℚ) (r1 r2 : List (Option Nat)) (s : List Nat) (st : PubState)
    (h : (publish compress now1 r1 s st).sent = true) :
    publish compress now2 r2 s ((publish compress now1 r1 s st).state) =
      { sent := false, wire := [],
        state := (publish compress now1 r1 s st).state, resps := r2 } := by
  have hlast := publish_sent_lastData compress now1 r1 s st h
  set st1 := (publish compress now1 r1 s st).state with hst1
  conv_lhs => rw [publish]
  rw [if_pos hlast.symm]

theorem publish_identical_second_noop_witness :
    (publish (fun x => x) 0 [some 4, some 1] [7]
        { lastData := Option.none, stats := initStats 0, sockOpen := true }).sent = true ∧
    publish (fun x => x) 1 []
        [7] ((publish (fun x => x) 0 [some 4, some 1] [7]
          { lastData := Option.none, stats := initStats 0, sockOpen := true }).state) =
      { sent := false, wire := [],
        state := (publish (fun x => x) 0 [some 4, some 1] [7]
          { lastData := Option.none, stats := initStats 0, sockOpen := true }).state,
        resps := [] } :=
  ⟨by decide,
    publish_identical_second_noop (fun x => x) 0 1 [some 4, some 1] [] [7]
      { lastData := Option.none, stats := initStats 0, sockOpen := true } (by decide)⟩

/-- C6 (amended): when the socket send fails or is incomplete (short
header write, zero-byte chunk send, or a raising send call —
`send_data` returns `False` in each case), the publish is aborted: the
text is not recorded, `sync_stats` is untouched (in particular the error
counter is *not* incremented — `send_data` swallows its own exceptions,
so `update_sync_stats(is_error=True)` is never reached from a send
failure), and the socket stays open for the next attempt. -/
theorem send_failure_aborts_without_error_count (compress : List Nat → List Nat)
    (now : ℚ) (resps : List (Option Nat)) (s : List Nat) (st : PubState)
    (hneq : ¬ some s = st.lastData)
    (hfail : (send_data compress resps s).1 = false) :
    (publish compress now resps s st).sent = false ∧
    (publish compress now resps s st).state = st := by
  unfold publish
  rw [if_neg hneq]
  rcases hsd : send_data compress resps s with ⟨ok, wire, rem⟩
  rw [hsd] at hfail
  simp only at hfail
  subst hfail
  exact ⟨rfl, rfl⟩

theorem send_failure_aborts_without_error_count_witness :
    ((¬ some [7] =
        ({ lastData := Option.none, stats := initStats 0, sockOpen := true } : PubState).lastData) ∧
      (send_data (fun x => x) [some 4, some 0] [7]).1 = false) ∧
    (publish (fun x => x) 0 [some 4, some 0] [7]
        { lastData := Option.none, stats := initStats 0, sockOpen := true }).sent = false ∧
    (publish (fun x => x) 0 [some 4, some 0] [7]
        { lastData := Option.none, stats := initStats 0, sockOpen := true }).state =
      { lastData := Option.none, stats := initStats 0, sockOpen := true } :=
  ⟨⟨by decide, by decide⟩,
    send_failure_aborts_without_error_count (fun x => x) 0 [some 4, some 0] [7]
      { lastData := Option.none, stats := initStats 0, sockOpen := true }
      (by decide) (by decide)⟩

/-- C6 (counterexample): the claim states a failed send increments the
error counter. At a concrete publish whose first chunk send accepts zero
bytes (broken connection), the error counter is unchanged, not
incremented: no path from `send_data`'s `False` return reaches
`update_sync_stats(is_error=True)`. -/
theorem send_failure_error_count_counterexample :
    ¬ ((publish (fun x => x) 0 [some 4, some 0] [7]
          { lastData := Option.none, stats := initStats 0, sockOpen := true }).state.stats.errors =
        (initStats 0).errors + 1) := by
  decide

/-- C5: after an inbound `transform_update` is applied at time `t` (the
gate is armed: applying flag raised, cooldown deadline `t + 1`), every
scene-change and frame-change trigger strictly before `t + 1` is a
complete no-op — `send_mesh_data` is not invoked (hence no serialize, no
send) and no state changes — whether or not the 0.1 s timer has already
cleared the applying flag. At or after `t + 1`, once the timer has
cleared the flag, the gate no longer vetoes: the combined gate check is
false and both handlers fall through to their throttle checks alone. -/
theorem gate_cooldown_blocks_then_expires (t now : ℚ) (st : HandlerState)
    (freq : Nat)
    (hg : st.gate = applyTransformGate t ∨
          st.gate = clearExternalTransformFlag (applyTransformGate t)) :
    (now < t + 1 →
      depsgraphHandler freq now st = (false, st) ∧
      frameChangeHandler now st = (false, st)) ∧
    (t + 1 ≤ now →
      gateVeto (clearExternalTransformFlag (applyTransformGate t)) now = false ∧
      (st.running = true →
        st.gate = clearExternalTransformFlag (applyTransformGate t) →
        depsgraphHandler freq now st = depsgraphThrottle freq now st ∧
        frameChangeHandler now st = frameThrottle now st)) := by
  constructor
  · intro hlt
    rcases hg with hg | hg <;>
      constructor <;>
        by_cases hr : st.running = false <;>
          simp [depsgraphHandler, frameChangeHandler, hg, hr,
            applyTransformGate, clearExternalTransformFlag, hlt]
  · intro hge
    constructor
    · simp [gateVeto, clearExternalTransformFlag, applyTransformGate,
        not_lt.mpr hge]
    · intro hrun hcleared
      have hnotlt : ¬ now < t + 1 := not_lt.mpr hge
      constructor
      · simp [depsgraphHandler, hcleared, clearExternalTransformFlag,
          applyTransformGate, hrun, hnotlt]
      · simp [frameChangeHandler, hcleared, clearExternalTransformFlag,
          applyTransformGate, hrun, hnotlt]

theorem gate_cooldown_blocks_then_expires_witness :
    depsgraphHandler 10 (1 / 2)
        { running := true, gate := applyTransformGate 0,
          lastDepsgraphSync := 0, lastFrameSync := 0 } =
      (false, { running := true, gate := applyTransformGate 0,
                lastDepsgraphSync := 0, lastFrameSync := 0 }) ∧
    frameChangeHandler (1 / 2)
        { running := true, gate := applyTransformGate 0,
          lastDepsgraphSync := 0, lastFrameSync := 0 } =
      (false, { running := true, gate := applyTransformGate 0,
                lastDepsgraphSync := 0, lastFrameSync := 0 }) :=
  (gate_cooldown_blocks_then_expires 0 (1 / 2)
      { running := true, gate := applyTransformGate 0,
        lastDepsgraphSync := 0, lastFrameSync := 0 } 10
      (Or.inl rfl)).1 (by norm_num)

/-- Trigger times for one second of scene-change signals every 50 ms. -/
def triggerTimes : List ℚ := (List.range 20).map (fun k => 1 + (k : ℚ) / 20)

/-- Handler state at the start of the trigger experiment: connected, gate
idle, no sync recorded yet. -/
def handlerStart : HandlerState :=
  { running := true, gate := { applying := false, cooldownEnd := 0 },
    lastDepsgraphSync := 0, lastFrameSync := 0 }

/-- C8 (amended): the scene-change (depsgraph) trigger is rate-limited to
the configured frequency — a trigger arriving sooner than `1/frequency`
seconds after the last accepted trigger is dropped, and issuing triggers
every 50 ms at 10 Hz yields exactly 10 accepted publishes in the second
— while the frame-change trigger is throttled by the fixed
`frame_sync_throttle` interval of 0.016 s (~60 Hz), independent of the
configured frequency (the original claim's assertion that both triggers
use `1/frequency` fails, see the counterexample). -/
theorem throttle_depsgraph_freq_frame_fixed (freq : Nat) (now : ℚ)
    (st : HandlerState) (hrun : st.running = true)
    (happ : st.gate.applying = false) (hcool : st.gate.cooldownEnd ≤ now) :
    (now - st.lastDepsgraphSync < 1 / (freq : ℚ) →
      depsgraphHandler freq now st = (false, st)) ∧
    (now - st.lastFrameSync < frame_sync_throttle →
      frameChangeHandler now st = (false, st)) ∧
    (runDepsgraphTriggers 10 triggerTimes handlerStart).1 = 10 := by
  refine ⟨?_, ?_, ?_⟩
  · intro hthr
    rw [one_div] at hthr
    simp [depsgraphHandler, hrun, happ, not_lt.mpr hcool,
      depsgraphThrottle, hthr]
  · intro hthr
    simp [frameChangeHandler, hrun, happ, not_lt.mpr hcool,
      frameThrottle, not_le.mpr hthr]
  · norm_num [runDepsgraphTriggers, triggerTimes, handlerStart,
      depsgraphHandler, depsgraphThrottle, List.range_succ]

theorem throttle_depsgraph_freq_frame_fixed_witness :
    depsgraphHandler 10 (1 / 20) handlerStart = (false, handlerStart) ∧
    (runDepsgraphTriggers 10 triggerTimes handlerStart).1 = 10 :=
  ⟨(throttle_depsgraph_freq_frame_fixed 10 (1 / 20) handlerStart rfl rfl
      (by norm_num [handlerStart])).1 (by norm_num [handlerStart]),
    (throttle_depsgraph_freq_frame_fixed 10 (1 / 20) handlerStart rfl rfl
      (by norm_num [handlerStart])).2.2⟩

/-- C8 (counterexample): with frequency 10 Hz, a frame-change trigger
arriving 0.05 s after the last accepted one — sooner than
`1/frequency = 0.1 s` — is accepted, not dropped: the frame-change
handler uses the fixed 0.016 s `frame_sync_throttle`, not the configured
frequency. -/
theorem frame_trigger_not_freq_limited_counterexample :
    (frameChangeHandler (1 + 1 / 20)
        { running := true, gate := { applying := false, cooldownEnd := 0 },
          lastDepsgraphSync := 0, lastFrameSync := 1 }).1 = true ∧
    ((1 : ℚ) + 1 / 20) - 1 < 1 / (10 : ℚ) := by
  constructor
  · norm_num [frameChangeHandler, frameThrottle, frame_sync_throttle]
  · norm_num

theorem cacheLookup_insert (c : List (String × TexData)) (k : String) (v : TexData) :
    cacheLookup (cacheInsert c k v) k = some v := by
  unfold cacheLookup cacheInsert
  rw [List.find?_cons_of_pos _ (by simp)]

/-- A `finishTexture` call that returns an asset has stored that asset in
the cache under `key`, and the stored asset passes the structural
validity check (it always carries `name` and `hash`). -/
theorem finishTexture_asset (b64 md5 : List Nat → String) (nm key : String)
    (dat : List Nat) (st2 st3 : TexState) (t : TexData)
    (h : finishTexture b64 md5 nm key dat st2 = (TexResult.asset t, st3)) :
    cacheLookup st3.cache key = some t ∧ validCached t = true := by
  unfold finishTexture at h
  by_cases hc : dat ≠ [] ∧ key ≠ ""
  · rw [if_pos hc] at h
    injection h with h1 h2
    injection h1 with h3
    subst h3
    subst h2
    exact ⟨cacheLookup_insert _ _ _, rfl⟩
  · rw [if_neg hc] at h
    injection h with h1 h2
    exact TexResult.noConfusion h1

/-- A file-backed `extract_texture_data` call that returns an asset
leaves the cache holding that asset, valid, under the file's cache
key. -/
theorem extractTexture_file_asset_cached (b64 md5 : List Nat → String)
    (fs : FS) (blend : Option String) (img : ImageSrc) (st st1 : TexState)
    (t : TexData)
    (hpacked : img.packed = Option.none)
    (hfp : ¬ img.filepath = "")
    (hrel : isBlendRelative img.filepath = false)
    (hcall : extractTextureData b64 md5 fs blend img st = (TexResult.asset t, st1)) :
    cacheLookup st1.cache (getFileCacheKey fs img.filepath) = some t ∧
    validCached t = true := by
  unfold extractTextureData at hcall
  rw [hpacked] at hcall
  simp only [hfp, if_false, hrel, Bool.false_eq_true] at hcall
  unfold consultCache at hcall
  rcases hl : cacheLookup st.cache (getFileCacheKey fs img.filepath) with _ | cached
  · rw [hl] at hcall
    dsimp only at hcall
    rcases hfs : fs img.filepath with _ | info
    · rw [hfs] at hcall
      injection hcall with h1 h2
      exact TexResult.noConfusion h1
    · rw [hfs] at hcall
      exact finishTexture_asset _ _ _ _ _ _ _ _ hcall
  · rw [hl] at hcall
    dsimp only at hcall
    by_cases hv : validCached cached = true
    · rw [if_pos hv] at hcall
      injection hcall with h1 h2
      injection h1 with h3
      subst h3
      subst h2
      exact ⟨hl, hv⟩
    · rw [if_neg hv] at hcall
      rcases hfs : fs img.filepath with _ | info
      · rw [hfs] at hcall
        injection hcall with h1 h2
        exact TexResult.noConfusion h1
      · rw [hfs] at hcall
        exact finishTexture_asset _ _ _ _ _ _ _ _ hcall

/-- C7: if a file-backed `extract_texture_data` call produced a texture
asset, then a second call for the same absolute path whose file still has
the same size and modification time — the file's bytes may be anything,
so the file is not re-read — returns the identical asset value and
increments only the `textures_cached` counter, leaving `textures_sent`
and the cache itself untouched. -/
theorem texture_second_call_cached (b64 md5 : List Nat → String)
    (fs1 fs2 : FS) (blend1 blend2 : Option String) (img : ImageSrc)
    (st st1 : TexState) (t : TexData) (i1 i2 : FileInfo)
    (hpacked : img.packed = Option.none)
    (hfp : ¬ img.filepath = "")
    (hrel : isBlendRelative img.filepath = false)
    (hfs1 : fs1 img.filepath = some i1)
    (hfs2 : fs2 img.filepath = some i2)
    (hsize : i2.size = i1.size) (hmtime : i2.mtime = i1.mtime)
    (hcall : extractTextureData b64 md5 fs1 blend1 img st = (TexResult.asset t, st1)) :
    extractTextureData b64 md5 fs2 blend2 img st1 =
      (TexResult.asset t, { st1 with texturesCached := st1.texturesCached + 1 }) := by
  obtain ⟨hlook, hvalid⟩ := extractTexture_file_asset_cached b64 md5 fs1 blend1
    img st st1 t hpacked hfp hrel hcall
  have hkey : getFileCacheKey fs2 img.filepath = getFileCacheKey fs1 img.filepath := by
    simp [getFileCacheKey, hfs1, hfs2, hsize, hmtime]
  unfold extractTextureData
  rw [hpacked]
  simp only [hfp, if_false, hrel, Bool.false_eq_true]
  unfold consultCache
  rw [hkey, hlook]
  dsimp only
  rw [if_pos hvalid]

theorem texture_second_call_cached_witness :
    extractTextureData b64c md5c fsFirst Option.none imgc texStart =
      (TexResult.asset texAsset0, texState1) ∧
    extractTextureData b64c md5c fsSecond Option.none imgc texState1 =
      (TexResult.asset texAsset0, { texState1 with texturesCached := 1 }) :=
  ⟨by decide,
    texture_second_call_cached b64c md5c fsFirst fsSecond Option.none Option.none
      imgc texStart texState1 texAsset0 ⟨3, 5, [1, 2, 3]⟩ ⟨3, 5, [9, 9, 9]⟩
      rfl (by decide) rfl (by decide) (by decide) rfl rfl (by decide)⟩

/-- C9 (amended): stopping a session that never started (no socket)
succeeds with `FINISHED` without raising, and a completed stop is
idempotent — running `execute` again returns the same result and the
same state. However, the original claim's "even when the underlying
socket close fails, stop() still succeeds" does not hold (see the
counterexample): the source wraps `tcp_socket.close()` in no
`try`/`except`. -/
theorem stop_noop_and_idempotent :
    (∀ st : Session, st.tcpSocket = Option.none →
      stopExecute st = Except.ok ("FINISHED",
        { st with isServerRunning := false, uiIsRunning := false,
                  stopReceiveThread := true, threadAlive := false })) ∧
    (∀ (st : Session) (r : String) (s1 : Session),
      stopExecute st = Except.ok (r, s1) → stopExecute s1 = Except.ok (r, s1)) := by
  constructor
  · intro st h
    unfold stopExecute
    rw [h]
  · intro st r s1 h
    unfold stopExecute at h
    rcases hsock : st.tcpSocket with _ | s
    · rw [hsock] at h
      dsimp only at h
      injection h with h1
      injection h1 with hr hs
      subst hr
      subst hs
      rfl
    · rw [hsock] at h
      dsimp only at h
      by_cases hcf : s.closeFails = true
      · rw [if_pos hcf] at h
        exact Except.noConfusion h
      · rw [if_neg hcf] at h
        injection h with h1
        injection h1 with hr hs
        subst hr
        subst hs
        rfl

theorem stop_noop_and_idempotent_witness :
    stopExecute ⟨Option.none, true, true, false, true⟩ =
      Except.ok ("FINISHED", ⟨Option.none, false, false, true, false⟩) ∧
    stopExecute ⟨Option.none, false, false, true, false⟩ =
      Except.ok ("FINISHED", ⟨Option.none, false, false, true, false⟩) :=
  ⟨stop_noop_and_idempotent.1 ⟨Option.none, true, true, false, true⟩ rfl,
    stop_noop_and_idempotent.2 ⟨Option.none, true, true, false, true⟩ "FINISHED"
      ⟨Option.none, false, false, true, false⟩
      (stop_noop_and_idempotent.1 ⟨Option.none, true, true, false, true⟩ rfl)⟩

/-- C9 (counterexample): the claim states `stop()` still succeeds when
the underlying socket close fails; on a session whose socket close
raises, `execute` propagates the exception instead of returning
`FINISHED`. -/
theorem stop_close_failure_counterexample :
    stopExecute ⟨some ⟨true⟩, true, true, false, true⟩ =
      Except.error "close failed" := rfl

end WebSync
